import Mathlib

/-!
# Verification of the eidetica database-provisioning core

A shallow embedding of `src/commands/databases.py` and
`src/commands/folders.py`: the local metadata store (folders and database
records), the remote PostgreSQL side modelled as an environment deciding
which remote calls succeed, and each command translated to a pure function
returning its boolean result, the new store, and the ordered trace of
remote calls it attempted.
-/

namespace Eidetica

/-- A row of the local `folders` table (`src/db/models.py`, class `Folder`).
`created_at` and `description` play no role in the verified claims and are
omitted. -/
structure Folder where
  id : Nat
  name : String
  userId : Nat
deriving DecidableEq, Repr

/-- A row of the local `databases` table (`src/db/models.py`, class
`Database`). -/
structure Database where
  id : Nat
  name : String
  username : String
  password : String
  folderId : Nat
deriving DecidableEq, Repr

/-- The local metadata store: the `folders` and `databases` tables. -/
structure Store where
  folders : List Folder
  databases : List Database
deriving DecidableEq, Repr

/-- A remote PostgreSQL statement issued by the engine through
`cursor.execute`, identified by its kind and arguments. -/
inductive RemoteCall where
  | createDatabase (dbname : String)
  | createUser (username : String) (password : String)
  | grant (dbname : String) (username : String)
  | alterUserPassword (username : String) (password : String)
  | terminateConnections (dbname : String)
  | dropDatabase (dbname : String)
  | dropUser (username : String)
  | alterDatabaseRename (oldName newName : String)
deriving DecidableEq, Repr

/-- The remote PostgreSQL environment: whether `POSTGRES_URL` is set,
whether `psycopg2.connect` succeeds, and which issued statements succeed
(`callOk c = false` models `cursor.execute` raising an exception). -/
structure RemoteEnv where
  urlSet : Bool
  connectOk : Bool
  callOk : RemoteCall → Bool

/-- Result of one engine operation: the boolean the Python function
returns, the store after the operation, and the remote statements that
were attempted, in order. -/
structure OpResult where
  ok : Bool
  store : Store
  trace : List RemoteCall
deriving Repr

/-- Python's `string.ascii_lowercase`. -/
def asciiLowercase : List Char := "abcdefghijklmnopqrstuvwxyz".data

/-- Python's `string.ascii_letters + string.digits`, the alphabet used for
generated passwords. -/
def asciiAlphanum : List Char :=
  ("abcdefghijklmnopqrstuvwxyz" ++ "ABCDEFGHIJKLMNOPQRSTUVWXYZ" ++ "0123456789").data

/-- One call `secrets.choice(seq)`: an element of `seq` selected by an
abstract random draw `r`. -/
def secretsChoice (seq : List Char) (r : Nat) : Char := seq.getD (r % seq.length) 'a'

/-- The username generation of `create_database`
(`databases.py:90`): twelve `secrets.choice(string.ascii_lowercase)` draws,
the draws supplied by the abstract random stream `rand`. -/
def generate_role_name (rand : Nat → Nat) : String :=
  ⟨(List.range 12).map fun i => secretsChoice asciiLowercase (rand i)⟩

/-- The password generation of `create_database` and
`reset_database_password` (`databases.py:91,181`): sixteen
`secrets.choice(string.ascii_letters + string.digits)` draws. -/
def generate_password (rand : Nat → Nat) : String :=
  ⟨(List.range 16).map fun i => secretsChoice asciiAlphanum (rand i)⟩

/-- The truthiness test `if folder_name:` applied to the optional
folder-scope filter of `get_database_by_name`: the filter is skipped when
`folder_name` is `None` or the empty string. -/
def folderScopeOk (folder_name : Option String) (f : Folder) : Bool :=
  match folder_name with
  | none => true
  | some fn => fn == "" || f.name == fn

/-- The row filter of `get_database_by_name` (`databases.py:30-37`): the
join `Database ⋈ Folder` on `Folder.id = Database.folder_id`, filtered by
`Folder.user_id == user_id`, `Database.name == dbname`, and optionally
`Folder.name == folder_name`. -/
def dbMatches (s : Store) (user_id : Nat) (dbname : String)
    (folder_name : Option String) (d : Database) : Bool :=
  s.folders.any fun f =>
    f.id == d.folderId && f.userId == user_id && d.name == dbname &&
      folderScopeOk folder_name f

/-- `get_database_by_name` (`databases.py:16-39`): first row of the
filtered join. -/
def get_database_by_name (user_id : Nat) (dbname : String) (s : Store)
    (folder_name : Option String) : Option Database :=
  s.databases.find? (dbMatches s user_id dbname folder_name)

/-- `validate_dbname_uniqueness` (`databases.py:42-47`). -/
def validate_dbname_uniqueness (folder_id : Nat) (dbname : String) (s : Store) : Bool :=
  (s.databases.find? fun d => d.folderId == folder_id && d.name == dbname).isNone

/-- `get_folder_by_name` (`folders.py:9-11`). -/
def get_folder_by_name (user_id : Nat) (name : String) (s : Store) : Option Folder :=
  s.folders.find? fun f => f.userId == user_id && f.name == name

/-- `validate_name_uniqueness` (`folders.py:14-17`). -/
def validate_name_uniqueness (user_id : Nat) (name : String) (s : Store) : Bool :=
  (s.folders.find? fun f => f.userId == user_id && f.name == name).isNone

/-- A fresh primary key for an inserted `Database` row. -/
def freshDbId (s : Store) : Nat := (s.databases.map (·.id)).foldr max 0 + 1

/-- A fresh primary key for an inserted `Folder` row. -/
def freshFolderId (s : Store) : Nat := (s.folders.map (·.id)).foldr max 0 + 1

/-- PostgreSQL `LIKE`/`ILIKE` pattern matching (case-insensitive), the
semantics of the `Database.name.ilike(f"%{query}%")` filter: `%` matches
any sequence, `_` matches exactly one character, backslash escapes the
following pattern character, and any other character matches itself up to
case. -/
def likeMatch : List Char → List Char → Bool
  | [], s => s.isEmpty
  | c :: ps, s =>
    if c = '%' then s.tails.any fun t => likeMatch ps t
    else if c = '_' then
      match s with
      | [] => false
      | _ :: s2 => likeMatch ps s2
    else if c = '\\' then
      match ps with
      | [] => false
      | c2 :: ps2 =>
        match s with
        | [] => false
        | c3 :: s2 => (c2.toLower == c3.toLower) && likeMatch ps2 s2
    else
      match s with
      | [] => false
      | c3 :: s2 => (c.toLower == c3.toLower) && likeMatch ps s2

/-- `name ILIKE pattern` on strings. -/
def ilike (pattern name : String) : Bool := likeMatch pattern.data name.data

/-- `create_database` (`databases.py:73-132`). Looks up the folder,
checks name uniqueness inside it, generates credentials, then issues
`CREATE DATABASE`, `CREATE USER ... WITH PASSWORD`, and
`GRANT ALL PRIVILEGES` in that order; the first remote failure (a missing
`POSTGRES_URL`, a failed connect, or a raising `cursor.execute`) aborts
with `False` and no local insert. On full remote success the new
`Database` row is committed and `True` returned. -/
def create_database (env : RemoteEnv) (folder_name dbname : String) (user_id : Nat)
    (randU randP : Nat → Nat) (s : Store) : OpResult :=
  match get_folder_by_name user_id folder_name s with
  | none => ⟨false, s, []⟩
  | some folder =>
    if !validate_dbname_uniqueness folder.id dbname s then ⟨false, s, []⟩
    else
      let username := generate_role_name randU
      let password := generate_password randP
      if !env.urlSet then ⟨false, s, []⟩
      else if !env.connectOk then ⟨false, s, []⟩
      else if !env.callOk (.createDatabase dbname) then ⟨false, s, [.createDatabase dbname]⟩
      else if !env.callOk (.createUser username password) then
        ⟨false, s, [.createDatabase dbname, .createUser username password]⟩
      else if !env.callOk (.grant dbname username) then
        ⟨false, s,
          [.createDatabase dbname, .createUser username password, .grant dbname username]⟩
      else
        ⟨true,
          { s with databases :=
              s.databases ++ [⟨freshDbId s, dbname, username, password, folder.id⟩] },
          [.createDatabase dbname, .createUser username password, .grant dbname username]⟩

/-- The record printed and returned by `get_database_info`
(`databases.py:144-150`); `created_at` is not modelled. -/
structure DbInfo where
  name : String
  username : String
  password : String
  connection_url : String
deriving DecidableEq, Repr

/-- `get_database_info` (`databases.py:135-152`): user-scoped lookup and
construction of the connection URL
`postgresql://<username>:<password>@localhost/<name>`. -/
def get_database_info (dbname : String) (user_id : Nat) (s : Store)
    (folder_name : Option String) : Option DbInfo :=
  (get_database_by_name user_id dbname s folder_name).map fun d =>
    ⟨d.name, d.username, d.password,
      "postgresql://" ++ d.username ++ ":" ++ d.password ++ "@localhost/" ++ d.name⟩

/-- `reset_database_password` (`databases.py:155-212`). The confirmation
gate (`confirm_action` modelled by `confirmed`) runs first, then the
user-scoped lookup; a missing `POSTGRES_URL`, failed connect, or failed
`ALTER USER ... WITH PASSWORD` returns `False` before the local
`database.password` assignment and commit. -/
def reset_database_password (env : RemoteEnv) (dbname : String) (user_id : Nat)
    (confirmed force : Bool) (folder_name : Option String) (randP : Nat → Nat)
    (s : Store) : OpResult :=
  if !force && !confirmed then ⟨false, s, []⟩
  else
    match get_database_by_name user_id dbname s folder_name with
    | none => ⟨false, s, []⟩
    | some d =>
      let new_password := generate_password randP
      if !env.urlSet then ⟨false, s, []⟩
      else if !env.connectOk then ⟨false, s, []⟩
      else if !env.callOk (.alterUserPassword d.username new_password) then
        ⟨false, s, [.alterUserPassword d.username new_password]⟩
      else
        ⟨true,
          { s with databases := s.databases.map fun x =>
              if x.id == d.id then { x with password := new_password } else x },
          [.alterUserPassword d.username new_password]⟩

/-- `delete_database` (`databases.py:215-370`). Confirmation gate, then
user-scoped lookup, then the dry-run early return. A missing
`POSTGRES_URL` raises outside the inner `try` and returns `False` with no
local change. Otherwise the inner `try` attempts, in order, connect,
connection termination, `DROP DATABASE IF EXISTS`, `DROP USER`; its first
failure abandons the remaining remote statements but is swallowed, and the
local row is deleted and `True` returned regardless. -/
def delete_database (env : RemoteEnv) (dbname : String) (user_id : Nat)
    (confirmed force dry_run : Bool) (folder_name : Option String) (s : Store) : OpResult :=
  if !force && !confirmed then ⟨false, s, []⟩
  else
    match get_database_by_name user_id dbname s folder_name with
    | none => ⟨false, s, []⟩
    | some d =>
      if dry_run then ⟨true, s, []⟩
      else if !env.urlSet then ⟨false, s, []⟩
      else
        let trace :=
          if !env.connectOk then []
          else if !env.callOk (.terminateConnections dbname) then
            [.terminateConnections dbname]
          else if !env.callOk (.dropDatabase dbname) then
            [.terminateConnections dbname, .dropDatabase dbname]
          else
            [.terminateConnections dbname, .dropDatabase dbname, .dropUser d.username]
        ⟨true, { s with databases := s.databases.filter fun x => x.id != d.id }, trace⟩

/-- The record selector of `update_database` (`databases.py:382-388`):
first row of `Database ⋈ Folder` filtered by `Database.name == old_name`
and `Folder.name == folder_name` — with no condition on the owning user. -/
def update_database_target (old_name folder_name : String) (s : Store) : Option Database :=
  s.databases.find? fun d =>
    s.folders.any fun f => f.id == d.folderId && d.name == old_name && f.name == folder_name

/-- `update_database` (`databases.py:373-425`): select by (name, folder
name), issue `ALTER DATABASE ... RENAME TO`, and on success update the
local row's `name` and `username`. Any remote failure aborts with no local
change. -/
def update_database (env : RemoteEnv) (old_name new_name username folder_name : String)
    (s : Store) : OpResult :=
  match update_database_target old_name folder_name s with
  | none => ⟨false, s, []⟩
  | some d =>
    if !env.urlSet then ⟨false, s, []⟩
    else if !env.connectOk then ⟨false, s, []⟩
    else if !env.callOk (.alterDatabaseRename old_name new_name) then
      ⟨false, s, [.alterDatabaseRename old_name new_name]⟩
    else
      ⟨true,
        { s with databases := s.databases.map fun x =>
            if x.id == d.id then { x with name := new_name, username := username } else x },
        [.alterDatabaseRename old_name new_name]⟩

/-- `search_databases` (`databases.py:428-449`): the rows of
`Database ⋈ Folder` with `Folder.user_id == user_id` and
`Database.name ILIKE '%query%'`; the function body contains no
`cursor.execute`, so its remote trace is empty. -/
def search_databases (user_id : Nat) (query : String) (s : Store) :
    List Database × List RemoteCall :=
  (s.databases.filter fun d =>
      (s.folders.any fun f => f.id == d.folderId && f.userId == user_id) &&
        ilike ("%" ++ query ++ "%") d.name,
    [])

/-- `create_folder` (`folders.py:39-51`): per-user name uniqueness check,
then insert. -/
def create_folder (user_id : Nat) (name : String) (s : Store) : Bool × Store :=
  if !validate_name_uniqueness user_id name s then (false, s)
  else (true, { s with folders := s.folders ++ [⟨freshFolderId s, name, user_id⟩] })

/-- `rename_folder` (`folders.py:54-72`): confirmation gate, lookup by
(user, old name), then the assignment `folder.name = new_name` and commit
— the source performs no uniqueness check on `new_name`. -/
def rename_folder (user_id : Nat) (old_name new_name : String)
    (confirmed force : Bool) (s : Store) : Bool × Store :=
  if !force && !confirmed then (false, s)
  else
    match get_folder_by_name user_id old_name s with
    | none => (false, s)
    | some f =>
      (true, { s with folders := s.folders.map fun x =>
          if x.id == f.id then { x with name := new_name } else x })

/-! ## Helper lemmas -/

theorem secretsChoice_mem (seq : List Char) (r : Nat) (h : seq ≠ []) :
    secretsChoice seq r ∈ seq := by
  have hlen : r % seq.length < seq.length :=
    Nat.mod_lt _ (List.length_pos.mpr h)
  unfold secretsChoice
  rw [List.getD_eq_getElem _ _ hlen]
  exact List.getElem_mem hlen

/-! ## Claims -/

/-- C8: every username generated by `create_database` is a 12-character
string over the lowercase ASCII letters, and every password generated by
`create_database` or `reset_database_password` is a 16-character string
over ASCII letters and digits, whatever the underlying random draws (the
source draws them from the CSPRNG `secrets` module, modelled here by the
abstract streams `randU`, `randP`). -/
theorem generated_credentials_shape (randU randP : Nat → Nat) :
    (generate_role_name randU).length = 12 ∧
    (∀ c ∈ (generate_role_name randU).data, c ∈ asciiLowercase) ∧
    (generate_password randP).length = 16 ∧
    (∀ c ∈ (generate_password randP).data, c ∈ asciiAlphanum) := by
  refine ⟨?_, ?_, ?_, ?_⟩
  · simp [generate_role_name, String.length]
  · intro c hc
    simp only [generate_role_name, List.mem_map, List.mem_range] at hc
    obtain ⟨i, _, rfl⟩ := hc
    exact secretsChoice_mem _ _ (by decide)
  · simp [generate_password, String.length]
  · intro c hc
    simp only [generate_password, List.mem_map, List.mem_range] at hc
    obtain ⟨i, _, rfl⟩ := hc
    exact secretsChoice_mem _ _ (by decide)

/-- Witness for `generated_credentials_shape` at the identity stream. -/
theorem generated_credentials_shape_witness :
    (generate_role_name fun i => i).length = 12 ∧
    (∀ c ∈ (generate_role_name fun i => i).data, c ∈ asciiLowercase) ∧
    (generate_password fun i => i).length = 16 ∧
    (∀ c ∈ (generate_password fun i => i).data, c ∈ asciiAlphanum) :=
  generated_credentials_shape (fun i => i) (fun i => i)

/-- C3: `create_database` with a name already present in the target folder
returns failure with zero remote statements issued and the local store
unchanged. -/
theorem create_database_conflict (env : RemoteEnv) (folder_name dbname : String)
    (user_id : Nat) (randU randP : Nat → Nat) (s : Store) (folder : Folder)
    (hfolder : get_folder_by_name user_id folder_name s = some folder)
    (hdup : validate_dbname_uniqueness folder.id dbname s = false) :
    create_database env folder_name dbname user_id randU randP s = ⟨false, s, []⟩ := by
  simp [create_database, hfolder, hdup]

/-- Witness for `create_database_conflict`: the folder `f` of user 1
already contains a database named `abc`. -/
theorem create_database_conflict_witness :
    get_folder_by_name 1 "f" ⟨[⟨1, "f", 1⟩], [⟨1, "abc", "u", "p", 1⟩]⟩ =
      some ⟨1, "f", 1⟩ ∧
    validate_dbname_uniqueness 1 "abc" ⟨[⟨1, "f", 1⟩], [⟨1, "abc", "u", "p", 1⟩]⟩ = false ∧
    create_database ⟨true, true, fun _ => true⟩ "f" "abc" 1 (fun _ => 0) (fun _ => 0)
        ⟨[⟨1, "f", 1⟩], [⟨1, "abc", "u", "p", 1⟩]⟩ =
      ⟨false, ⟨[⟨1, "f", 1⟩], [⟨1, "abc", "u", "p", 1⟩]⟩, []⟩ :=
  ⟨by decide, by decide,
    create_database_conflict ⟨true, true, fun _ => true⟩ "f" "abc" 1 (fun _ => 0)
      (fun _ => 0) ⟨[⟨1, "f", 1⟩], [⟨1, "abc", "u", "p", 1⟩]⟩ ⟨1, "f", 1⟩
      (by decide) (by decide)⟩

/-- C2: whenever one of the three remote DDL statements of
`create_database` (`CREATE DATABASE`, `CREATE USER`, `GRANT`) fails, the
operation returns failure and the local store is unchanged: no `Database`
record is written. -/
theorem create_database_fail_closed (env : RemoteEnv) (folder_name dbname : String)
    (user_id : Nat) (randU randP : Nat → Nat) (s : Store)
    (hfail : env.callOk (.createDatabase dbname) = false ∨
      env.callOk (.createUser (generate_role_name randU) (generate_password randP)) = false ∨
      env.callOk (.grant dbname (generate_role_name randU)) = false) :
    (create_database env folder_name dbname user_id randU randP s).ok = false ∧
    (create_database env folder_name dbname user_id randU randP s).store = s := by
  unfold create_database
  cases hget : get_folder_by_name user_id folder_name s with
  | none => simp
  | some folder =>
    simp only
    split_ifs with h1 h2 h3 h4 h5 h6 <;> simp_all

/-- Witness for `create_database_fail_closed`: the `CREATE DATABASE`
statement fails. -/
theorem create_database_fail_closed_witness :
    ((⟨true, true, fun _ => false⟩ : RemoteEnv).callOk (.createDatabase "app") = false ∨
      (⟨true, true, fun _ => false⟩ : RemoteEnv).callOk
        (.createUser (generate_role_name fun _ => 0) (generate_password fun _ => 0)) = false ∨
      (⟨true, true, fun _ => false⟩ : RemoteEnv).callOk
        (.grant "app" (generate_role_name fun _ => 0)) = false) ∧
    (create_database ⟨true, true, fun _ => false⟩ "f" "app" 1 (fun _ => 0) (fun _ => 0)
      ⟨[⟨1, "f", 1⟩], []⟩).ok = false ∧
    (create_database ⟨true, true, fun _ => false⟩ "f" "app" 1 (fun _ => 0) (fun _ => 0)
      ⟨[⟨1, "f", 1⟩], []⟩).store = ⟨[⟨1, "f", 1⟩], []⟩ :=
  ⟨Or.inl rfl,
    create_database_fail_closed ⟨true, true, fun _ => false⟩ "f" "app" 1 (fun _ => 0)
      (fun _ => 0) ⟨[⟨1, "f", 1⟩], []⟩ (Or.inl rfl)⟩

/-- C4: when the remote `ALTER USER ... WITH PASSWORD` statement fails,
`reset_database_password` on an existing database returns failure and the
local store — in particular the stored password — is unchanged. -/
theorem reset_password_fail_closed (env : RemoteEnv) (dbname : String) (user_id : Nat)
    (confirmed force : Bool) (folder_name : Option String) (randP : Nat → Nat)
    (s : Store) (d : Database)
    (hfound : get_database_by_name user_id dbname s folder_name = some d)
    (hfail : env.callOk (.alterUserPassword d.username (generate_password randP)) = false) :
    (reset_database_password env dbname user_id confirmed force folder_name randP s).ok
      = false ∧
    (reset_database_password env dbname user_id confirmed force folder_name randP s).store
      = s := by
  unfold reset_database_password
  rw [hfound]
  simp only
  split_ifs <;> simp_all

/-- Witness for `reset_password_fail_closed`: the `ALTER USER` statement
fails on the sole database of user 1. -/
theorem reset_password_fail_closed_witness :
    get_database_by_name 1 "abc" ⟨[⟨1, "f", 1⟩], [⟨1, "abc", "u", "p", 1⟩]⟩ none =
      some ⟨1, "abc", "u", "p", 1⟩ ∧
    (⟨true, true, fun _ => false⟩ : RemoteEnv).callOk
      (.alterUserPassword "u" (generate_password fun _ => 0)) = false ∧
    (reset_database_password ⟨true, true, fun _ => false⟩ "abc" 1 false true none
      (fun _ => 0) ⟨[⟨1, "f", 1⟩], [⟨1, "abc", "u", "p", 1⟩]⟩).ok = false ∧
    (reset_database_password ⟨true, true, fun _ => false⟩ "abc" 1 false true none
      (fun _ => 0) ⟨[⟨1, "f", 1⟩], [⟨1, "abc", "u", "p", 1⟩]⟩).store =
      ⟨[⟨1, "f", 1⟩], [⟨1, "abc", "u", "p", 1⟩]⟩ :=
  ⟨by decide, rfl,
    reset_password_fail_closed ⟨true, true, fun _ => false⟩ "abc" 1 false true none
      (fun _ => 0) ⟨[⟨1, "f", 1⟩], [⟨1, "abc", "u", "p", 1⟩]⟩ ⟨1, "abc", "u", "p", 1⟩
      (by decide) rfl⟩

/-- C5: `delete_database` with `dry_run = true` on an existing record of
the user (gate passed) returns `True`, issues no remote statement, and
leaves the local store unchanged. -/
theorem delete_database_dry_run (env : RemoteEnv) (dbname : String) (user_id : Nat)
    (confirmed force : Bool) (folder_name : Option String) (s : Store) (d : Database)
    (hgate : force = true ∨ confirmed = true)
    (hfound : get_database_by_name user_id dbname s folder_name = some d) :
    delete_database env dbname user_id confirmed force true folder_name s =
      ⟨true, s, []⟩ := by
  have hg : (!force && !confirmed) = false := by
    rcases hgate with h | h <;> simp [h]
  simp [delete_database, hg, hfound]

/-- Witness for `delete_database_dry_run`. -/
theorem delete_database_dry_run_witness :
    (true = true ∨ false = true) ∧
    get_database_by_name 1 "abc" ⟨[⟨1, "f", 1⟩], [⟨1, "abc", "u", "p", 1⟩]⟩ none =
      some ⟨1, "abc", "u", "p", 1⟩ ∧
    delete_database ⟨true, true, fun _ => true⟩ "abc" 1 false true true none
      ⟨[⟨1, "f", 1⟩], [⟨1, "abc", "u", "p", 1⟩]⟩ =
      ⟨true, ⟨[⟨1, "f", 1⟩], [⟨1, "abc", "u", "p", 1⟩]⟩, []⟩ :=
  ⟨Or.inl rfl, by decide,
    delete_database_dry_run ⟨true, true, fun _ => true⟩ "abc" 1 false true none
      ⟨[⟨1, "f", 1⟩], [⟨1, "abc", "u", "p", 1⟩]⟩ ⟨1, "abc", "u", "p", 1⟩
      (Or.inl rfl) (by decide)⟩

/-- C1: `delete_database` on an existing record of the user, with the gate
passed, `dry_run = false` and `POSTGRES_URL` set, attempts the remote
steps in the order connection-termination, `DROP DATABASE`, `DROP USER`
(its trace is always an initial segment of that sequence, and the full
sequence when nothing fails before `DROP USER`), and regardless of remote
failures deletes the local record and returns `True`. -/
theorem delete_database_fail_open (env : RemoteEnv) (dbname : String) (user_id : Nat)
    (confirmed force : Bool) (folder_name : Option String) (s : Store) (d : Database)
    (hgate : force = true ∨ confirmed = true)
    (hurl : env.urlSet = true)
    (hfound : get_database_by_name user_id dbname s folder_name = some d) :
    (delete_database env dbname user_id confirmed force false folder_name s).ok = true ∧
    (delete_database env dbname user_id confirmed force false folder_name s).store =
      { s with databases := s.databases.filter fun x => x.id != d.id } ∧
    (∃ n, (delete_database env dbname user_id confirmed force false folder_name s).trace =
      ([.terminateConnections dbname, .dropDatabase dbname, .dropUser d.username] :
        List RemoteCall).take n) ∧
    (env.connectOk = true →
      env.callOk (.terminateConnections dbname) = true →
      env.callOk (.dropDatabase dbname) = true →
      (delete_database env dbname user_id confirmed force false folder_name s).trace =
        [.terminateConnections dbname, .dropDatabase dbname, .dropUser d.username]) := by
  have hg : (!force && !confirmed) = false := by
    rcases hgate with h | h <;> simp [h]
  simp only [delete_database, hg, hfound, hurl]
  refine ⟨by simp, by simp, ?_, ?_⟩
  · cases hco : env.connectOk
    · exact ⟨0, by simp⟩
    · cases ht : env.callOk (.terminateConnections dbname)
      · exact ⟨1, by simp [ht]⟩
      · cases hdd : env.callOk (.dropDatabase dbname)
        · exact ⟨2, by simp [ht, hdd]⟩
        · exact ⟨3, by simp [ht, hdd]⟩
  · intro hco ht hdd
    simp [hco, ht, hdd]

/-- Witness for `delete_database_fail_open`: every remote statement fails,
yet the record is deleted and the call reports success with a trace that
stops after the failed connection termination. -/
theorem delete_database_fail_open_witness :
    (true = true ∨ false = true) ∧
    (⟨true, true, fun _ => false⟩ : RemoteEnv).urlSet = true ∧
    get_database_by_name 1 "abc" ⟨[⟨1, "f", 1⟩], [⟨1, "abc", "u", "p", 1⟩]⟩ none =
      some ⟨1, "abc", "u", "p", 1⟩ ∧
    (delete_database ⟨true, true, fun _ => false⟩ "abc" 1 false true false none
      ⟨[⟨1, "f", 1⟩], [⟨1, "abc", "u", "p", 1⟩]⟩).ok = true ∧
    (delete_database ⟨true, true, fun _ => false⟩ "abc" 1 false true false none
      ⟨[⟨1, "f", 1⟩], [⟨1, "abc", "u", "p", 1⟩]⟩).store =
      { folders := [⟨1, "f", 1⟩],
        databases := [⟨1, "abc", "u", "p", 1⟩].filter fun x => x.id != 1 } :=
  ⟨Or.inl rfl, rfl, by decide,
    (delete_database_fail_open ⟨true, true, fun _ => false⟩ "abc" 1 false true none
      ⟨[⟨1, "f", 1⟩], [⟨1, "abc", "u", "p", 1⟩]⟩ ⟨1, "abc", "u", "p", 1⟩
      (Or.inl rfl) rfl (by decide)).1,
    (delete_database_fail_open ⟨true, true, fun _ => false⟩ "abc" 1 false true none
      ⟨[⟨1, "f", 1⟩], [⟨1, "abc", "u", "p", 1⟩]⟩ ⟨1, "abc", "u", "p", 1⟩
      (Or.inl rfl) rfl (by decide)).2.1⟩

/-- Elimination for a successful `create_database`: the folder was found,
the name was unique in it, and the new store is the old one with the new
credentials row appended. -/
theorem create_database_ok_elim (env : RemoteEnv) (folder_name dbname : String)
    (user_id : Nat) (randU randP : Nat → Nat) (s : Store)
    (hok : (create_database env folder_name dbname user_id randU randP s).ok = true) :
    ∃ folder, get_folder_by_name user_id folder_name s = some folder ∧
      validate_dbname_uniqueness folder.id dbname s = true ∧
      (create_database env folder_name dbname user_id randU randP s).store =
        { s with databases := s.databases ++
            [⟨freshDbId s, dbname, generate_role_name randU, generate_password randP,
              folder.id⟩] } := by
  unfold create_database at hok ⊢
  cases hget : get_folder_by_name user_id folder_name s with
  | none => rw [hget] at hok; simp at hok
  | some folder =>
    rw [hget] at hok
    refine ⟨folder, rfl, ?_⟩
    simp only at hok ⊢
    split_ifs at hok ⊢
    simp_all

/-- C6: a successful `create_database` followed immediately by
`get_database_info` on the same (folder, name) returns the created
record's name, username and password, and a connection URL built exactly
from those fields as `postgresql://<username>:<password>@localhost/<name>`.
The store must satisfy the per-user folder-name uniqueness invariant and
the folder scope must be non-empty (the source skips the folder filter on
an empty string). -/
theorem create_then_get_info (env : RemoteEnv) (folder_name dbname : String)
    (user_id : Nat) (randU randP : Nat → Nat) (s : Store)
    (huniq : ∀ f1 ∈ s.folders, ∀ f2 ∈ s.folders,
      f1.userId = f2.userId → f1.name = f2.name → f1.id = f2.id)
    (hne : folder_name ≠ "")
    (hok : (create_database env folder_name dbname user_id randU randP s).ok = true) :
    get_database_info dbname user_id
        (create_database env folder_name dbname user_id randU randP s).store
        (some folder_name) =
      some ⟨dbname, generate_role_name randU, generate_password randP,
        "postgresql://" ++ generate_role_name randU ++ ":" ++ generate_password randP ++
          "@localhost/" ++ dbname⟩ := by
  obtain ⟨folder, hfolder, huniqdb, hstore⟩ :=
    create_database_ok_elim env folder_name dbname user_id randU randP s hok
  rw [hstore]
  have hfmem : folder ∈ s.folders := List.mem_of_find?_eq_some hfolder
  have hfprops := List.find?_some hfolder
  rw [Bool.and_eq_true, beq_iff_eq, beq_iff_eq] at hfprops
  obtain ⟨hfu, hfn⟩ := hfprops
  have hdbnone := huniqdb
  unfold validate_dbname_uniqueness at hdbnone
  rw [Option.isNone_iff_eq_none, List.find?_eq_none] at hdbnone
  unfold get_database_info get_database_by_name
  have hnone : (s.databases.find? (dbMatches
      { s with databases := s.databases ++
          [⟨freshDbId s, dbname, generate_role_name randU, generate_password randP,
            folder.id⟩] } user_id dbname (some folder_name))) = none := by
    rw [List.find?_eq_none]
    intro x hx hpred
    unfold dbMatches at hpred
    simp only [List.any_eq_true] at hpred
    obtain ⟨f, hfmem2, hf⟩ := hpred
    simp only [Bool.and_eq_true, beq_iff_eq] at hf
    obtain ⟨⟨⟨hfid, hfu2⟩, hxname⟩, hscope⟩ := hf
    have hfn2 : f.name = folder_name := by
      unfold folderScopeOk at hscope
      rcases Bool.or_eq_true .. |>.mp hscope with h | h
      · exact absurd (by simpa using h) hne
      · simpa using h
    have hid : f.id = folder.id := huniq f hfmem2 folder hfmem (hfu2.trans hfu.symm)
      (hfn2.trans hfn.symm)
    exact hdbnone x hx (by simp [← hid, hfid, hxname])
  simp only
  rw [List.find?_append, hnone, Option.none_or]
  have hpred : dbMatches
      { s with databases := s.databases ++
          [⟨freshDbId s, dbname, generate_role_name randU, generate_password randP,
            folder.id⟩] } user_id dbname (some folder_name)
      ⟨freshDbId s, dbname, generate_role_name randU, generate_password randP,
        folder.id⟩ = true := by
    unfold dbMatches
    simp only [List.any_eq_true]
    exact ⟨folder, hfmem, by simp [hfu, hfn, folderScopeOk]⟩
  rw [List.find?_cons_of_pos _ hpred]
  rfl

/-- Witness for `create_then_get_info` on a fresh store with one folder. -/
theorem create_then_get_info_witness :
    (∀ f1 ∈ (⟨[⟨1, "f", 1⟩], []⟩ : Store).folders,
      ∀ f2 ∈ (⟨[⟨1, "f", 1⟩], []⟩ : Store).folders,
      f1.userId = f2.userId → f1.name = f2.name → f1.id = f2.id) ∧
    "f" ≠ "" ∧
    (create_database ⟨true, true, fun _ => true⟩ "f" "app" 1 (fun _ => 0) (fun _ => 0)
      ⟨[⟨1, "f", 1⟩], []⟩).ok = true ∧
    get_database_info "app" 1
        (create_database ⟨true, true, fun _ => true⟩ "f" "app" 1 (fun _ => 0) (fun _ => 0)
          ⟨[⟨1, "f", 1⟩], []⟩).store (some "f") =
      some ⟨"app", generate_role_name fun _ => 0, generate_password fun _ => 0,
        "postgresql://" ++ (generate_role_name fun _ => 0) ++ ":" ++
          (generate_password fun _ => 0) ++ "@localhost/" ++ "app"⟩ :=
  ⟨by decide, by decide, by decide,
    create_then_get_info ⟨true, true, fun _ => true⟩ "f" "app" 1 (fun _ => 0) (fun _ => 0)
      ⟨[⟨1, "f", 1⟩], []⟩ (by decide) (by decide) (by decide)⟩

/-- A leading `%` wildcard matches any split of the subject. -/
theorem likeMatch_percent (p s : List Char) :
    likeMatch ('%' :: p) s = true ↔ ∃ t1 t2, s = t1 ++ t2 ∧ likeMatch p t2 = true := by
  have h : likeMatch ('%' :: p) s = s.tails.any fun t => likeMatch p t := by
    rw [likeMatch.eq_def]
    simp
  rw [h, List.any_eq_true]
  constructor
  · rintro ⟨t, htmem, ht⟩
    rw [List.mem_tails] at htmem
    obtain ⟨t1, rfl⟩ := htmem
    exact ⟨t1, t, rfl, ht⟩
  · rintro ⟨t1, t2, rfl, ht⟩
    exact ⟨t2, (List.mem_tails _ _).mpr ⟨t1, rfl⟩, ht⟩

/-- A wildcard-free pattern followed by `%` matches exactly the subjects
whose lowercasing starts with the pattern's lowercasing. -/
theorem likeMatch_literal :
    ∀ p : List Char, (∀ c ∈ p, c ≠ '%' ∧ c ≠ '_' ∧ c ≠ '\\') →
    ∀ s : List Char,
      (likeMatch (p ++ ['%']) s = true ↔
        ∃ t2, s.map Char.toLower = p.map Char.toLower ++ t2) := by
  intro p
  induction p with
  | nil =>
    intro _ s
    simp only [List.nil_append, List.map_nil]
    constructor
    · intro _
      exact ⟨s.map Char.toLower, rfl⟩
    · intro _
      rw [likeMatch_percent]
      exact ⟨s, [], by simp, rfl⟩
  | cons c p ih =>
    intro hq s
    obtain ⟨hc1, hc2, hc3⟩ := hq c (List.mem_cons_self c p)
    have ihq : ∀ x ∈ p, x ≠ '%' ∧ x ≠ '_' ∧ x ≠ '\\' := fun x hx =>
      hq x (List.mem_cons_of_mem _ hx)
    cases s with
    | nil =>
      rw [List.cons_append]
      have hfalse : likeMatch (c :: (p ++ ['%'])) [] = false := by
        rw [likeMatch.eq_def]
        simp only [if_neg hc1, if_neg hc2, if_neg hc3]
      rw [hfalse]
      simp
    | cons c3 s2 =>
      rw [List.cons_append]
      have hstep : likeMatch (c :: (p ++ ['%'])) (c3 :: s2) =
          ((c.toLower == c3.toLower) && likeMatch (p ++ ['%']) s2) := by
        rw [likeMatch.eq_def]
        simp only [if_neg hc1, if_neg hc2, if_neg hc3]
      rw [hstep, Bool.and_eq_true, beq_iff_eq, ih ihq s2]
      constructor
      · rintro ⟨h1, t2, h2⟩
        refine ⟨t2, ?_⟩
        rw [List.map_cons, List.map_cons, List.cons_append, h2, h1]
      · rintro ⟨t2, h⟩
        rw [List.map_cons, List.map_cons, List.cons_append, List.cons.injEq] at h
        exact ⟨h.1.symm, t2, h.2⟩

/-- For a wildcard-free `q`, the pattern `%q%` matches exactly the
subjects containing `q` as a case-insensitive contiguous run. -/
theorem likeMatch_substring (q : List Char)
    (hq : ∀ c ∈ q, c ≠ '%' ∧ c ≠ '_' ∧ c ≠ '\\') (s : List Char) :
    likeMatch ('%' :: (q ++ ['%'])) s = true ↔
      ∃ t1 t2, s.map Char.toLower = t1 ++ q.map Char.toLower ++ t2 := by
  rw [likeMatch_percent]
  constructor
  · rintro ⟨s1, s2, rfl, h⟩
    obtain ⟨t2, h2⟩ := (likeMatch_literal q hq s2).mp h
    exact ⟨s1.map Char.toLower, t2, by rw [List.map_append, h2, List.append_assoc]⟩
  · rintro ⟨t1, t2, h⟩
    rw [List.append_assoc] at h
    obtain ⟨s1, s2, rfl, h1, h2⟩ := List.map_eq_append_iff.mp h
    exact ⟨s1, s2, rfl, (likeMatch_literal q hq s2).mpr ⟨t2, h2⟩⟩

/-- C9 (amended): for every query string free of the `ILIKE`
metacharacters `%`, `_` and `\\`, `search_databases` returns exactly the
records whose name contains the query as a case-insensitive substring,
restricted to folders owned by the user, and issues no remote call. -/
theorem search_databases_substring (user_id : Nat) (query : String) (s : Store)
    (d : Database)
    (hq : ∀ c ∈ query.data, c ≠ '%' ∧ c ≠ '_' ∧ c ≠ '\\') :
    (search_databases user_id query s).2 = [] ∧
    (d ∈ (search_databases user_id query s).1 ↔
      d ∈ s.databases ∧
      (∃ f ∈ s.folders, f.id = d.folderId ∧ f.userId = user_id) ∧
      ∃ t1 t2, d.name.data.map Char.toLower =
        t1 ++ query.data.map Char.toLower ++ t2) := by
  refine ⟨rfl, ?_⟩
  have hdata : ("%" ++ query ++ "%").data = '%' :: (query.data ++ ['%']) := by
    rw [String.data_append, String.data_append]
    rfl
  have hilike : (ilike ("%" ++ query ++ "%") d.name = true) ↔
      ∃ t1 t2, d.name.data.map Char.toLower =
        t1 ++ query.data.map Char.toLower ++ t2 := by
    unfold ilike
    rw [hdata]
    exact likeMatch_substring query.data hq d.name.data
  unfold search_databases
  simp only
  rw [List.mem_filter, Bool.and_eq_true, hilike, List.any_eq_true]
  simp only [Bool.and_eq_true, beq_iff_eq, and_assoc]

/-- C9 (counterexample): the source interpolates the query into an
`ILIKE` pattern unescaped, so the query `a_c` — whose `_` is a one-char
wildcard — matches the database named `abc`, which does not contain `a_c`
as a substring. -/
theorem search_databases_wildcard_counterexample :
    (search_databases 1 "a_c" ⟨[⟨1, "f", 1⟩], [⟨1, "abc", "u", "p", 1⟩]⟩).1 =
      [⟨1, "abc", "u", "p", 1⟩] ∧
    ¬ ∃ t1 t2, "abc".data.map Char.toLower =
      t1 ++ "a_c".data.map Char.toLower ++ t2 := by
  constructor
  · decide
  · rintro ⟨t1, t2, h⟩
    have h3 : ("abc".data.map Char.toLower).length = 3 := by decide
    have h3q : ("a_c".data.map Char.toLower).length = 3 := by decide
    rw [h, List.length_append, List.length_append, h3q] at h3
    have ht1 : t1.length = 0 := by omega
    have ht2 : t2.length = 0 := by omega
    rw [List.length_eq_zero] at ht1 ht2
    subst ht1
    subst ht2
    rw [List.nil_append, List.append_nil] at h
    exact absurd h (by decide)

/-- Witness for `search_databases_substring` at the wildcard-free query
`b`. -/
theorem search_databases_substring_witness :
    (∀ c ∈ "b".data, c ≠ '%' ∧ c ≠ '_' ∧ c ≠ '\\') ∧
    ((search_databases 1 "b" ⟨[⟨1, "f", 1⟩], [⟨1, "abc", "u", "p", 1⟩]⟩).2 = [] ∧
     ((⟨1, "abc", "u", "p", 1⟩ : Database) ∈
        (search_databases 1 "b" ⟨[⟨1, "f", 1⟩], [⟨1, "abc", "u", "p", 1⟩]⟩).1 ↔
      (⟨1, "abc", "u", "p", 1⟩ : Database) ∈
        (⟨[⟨1, "f", 1⟩], [⟨1, "abc", "u", "p", 1⟩]⟩ : Store).databases ∧
      (∃ f ∈ (⟨[⟨1, "f", 1⟩], [⟨1, "abc", "u", "p", 1⟩]⟩ : Store).folders,
        f.id = (⟨1, "abc", "u", "p", 1⟩ : Database).folderId ∧ f.userId = 1) ∧
      ∃ t1 t2, (⟨1, "abc", "u", "p", 1⟩ : Database).name.data.map Char.toLower =
        t1 ++ "b".data.map Char.toLower ++ t2)) :=
  ⟨by decide,
    search_databases_substring 1 "b" ⟨[⟨1, "f", 1⟩], [⟨1, "abc", "u", "p", 1⟩]⟩
      ⟨1, "abc", "u", "p", 1⟩ (by decide)⟩

/-- C7 (counterexample): `rename_folder` does not enforce per-user folder
name uniqueness: renaming folder `a` of user 1 to `b` succeeds although
the user already has a folder named `b`, and the resulting store violates
the (user_id, name) uniqueness invariant. -/
theorem rename_folder_conflict_counterexample :
    (rename_folder 1 "a" "b" false true ⟨[⟨1, "a", 1⟩, ⟨2, "b", 1⟩], []⟩).1 = true ∧
    (rename_folder 1 "a" "b" false true ⟨[⟨1, "a", 1⟩, ⟨2, "b", 1⟩], []⟩).2.folders =
      [⟨1, "b", 1⟩, ⟨2, "b", 1⟩] ∧
    ¬ (∀ f1 ∈ (rename_folder 1 "a" "b" false true
          ⟨[⟨1, "a", 1⟩, ⟨2, "b", 1⟩], []⟩).2.folders,
        ∀ f2 ∈ (rename_folder 1 "a" "b" false true
          ⟨[⟨1, "a", 1⟩, ⟨2, "b", 1⟩], []⟩).2.folders,
        f1.userId = f2.userId → f1.name = f2.name → f1.id = f2.id) := by
  refine ⟨by decide, by decide, ?_⟩
  intro h
  exact absurd (h ⟨1, "b", 1⟩ (by decide) ⟨2, "b", 1⟩ (by decide) rfl rfl) (by decide)

/-- C7 (amended): `rename_folder` performs no uniqueness check on the new
name: whenever the folder exists for the user and the gate passes, it
returns `True` and renames unconditionally — even onto a name already
used by another folder of the same user — leaving the databases table
untouched. -/
theorem rename_folder_unconditional (user_id : Nat) (old_name new_name : String)
    (confirmed force : Bool) (s : Store) (f : Folder)
    (hgate : force = true ∨ confirmed = true)
    (hfound : get_folder_by_name user_id old_name s = some f) :
    (rename_folder user_id old_name new_name confirmed force s).1 = true ∧
    (rename_folder user_id old_name new_name confirmed force s).2.folders =
      (s.folders.map fun x => if x.id == f.id then { x with name := new_name } else x) ∧
    (rename_folder user_id old_name new_name confirmed force s).2.databases =
      s.databases := by
  have hg : (!force && !confirmed) = false := by
    rcases hgate with h | h <;> simp [h]
  simp [rename_folder, hg, hfound]

/-- Witness for `rename_folder_unconditional` on a store where the new
name already belongs to another folder of the same user. -/
theorem rename_folder_unconditional_witness :
    (true = true ∨ false = true) ∧
    get_folder_by_name 1 "a" ⟨[⟨1, "a", 1⟩, ⟨2, "b", 1⟩], []⟩ = some ⟨1, "a", 1⟩ ∧
    (rename_folder 1 "a" "b" false true ⟨[⟨1, "a", 1⟩, ⟨2, "b", 1⟩], []⟩).1 = true ∧
    (rename_folder 1 "a" "b" false true ⟨[⟨1, "a", 1⟩, ⟨2, "b", 1⟩], []⟩).2.folders =
      ([⟨1, "a", 1⟩, ⟨2, "b", 1⟩].map fun x =>
        if x.id == (⟨1, "a", 1⟩ : Folder).id then { x with name := "b" } else x) :=
  ⟨Or.inl rfl, by decide,
    (rename_folder_unconditional 1 "a" "b" false true ⟨[⟨1, "a", 1⟩, ⟨2, "b", 1⟩], []⟩
      ⟨1, "a", 1⟩ (Or.inl rfl) (by decide)).1,
    (rename_folder_unconditional 1 "a" "b" false true ⟨[⟨1, "a", 1⟩, ⟨2, "b", 1⟩], []⟩
      ⟨1, "a", 1⟩ (Or.inl rfl) (by decide)).2.1⟩

/-- C10: `update_database` selects its target by database name and folder
name only, with no constraint on the owning user — a record owned by a
user `u2` different from any supplied caller `user_id` is still matched
and renamed (the function takes no user argument at all) — whereas the
user-scoped lookup `get_database_by_name` used by `get_database_info`,
`reset_database_password` and `delete_database` only returns records whose
folder is owned by the supplied user, and those two mutations either leave
the store unchanged or act exactly on the record that lookup returned. -/
theorem update_database_ignores_user (env : RemoteEnv)
    (old_name new_name uname folder_name : String) (s : Store) (d : Database)
    (user_id u2 : Nat) (f : Folder) :
    (update_database_target old_name folder_name s = some d →
      f ∈ s.folders → f.id = d.folderId → f.userId = u2 → u2 ≠ user_id →
      env.urlSet = true → env.connectOk = true →
      env.callOk (.alterDatabaseRename old_name new_name) = true →
      (update_database env old_name new_name uname folder_name s).ok = true ∧
      (update_database env old_name new_name uname folder_name s).store.databases =
        (s.databases.map fun x =>
          if x.id == d.id then { x with name := new_name, username := uname } else x)) ∧
    (∀ uid dbn fn d2, get_database_by_name uid dbn s fn = some d2 →
      ∃ f2 ∈ s.folders, f2.id = d2.folderId ∧ f2.userId = uid) ∧
    (∀ uid dbn conf force fn randP,
      (reset_database_password env dbn uid conf force fn randP s).store = s ∨
      ∃ d2, get_database_by_name uid dbn s fn = some d2 ∧
        (reset_database_password env dbn uid conf force fn randP s).store.databases =
          (s.databases.map fun x =>
            if x.id == d2.id then { x with password := generate_password randP } else x)) ∧
    (∀ uid dbn conf force dry fn,
      (delete_database env dbn uid conf force dry fn s).store = s ∨
      ∃ d2, get_database_by_name uid dbn s fn = some d2 ∧
        (delete_database env dbn uid conf force dry fn s).store.databases =
          (s.databases.filter fun x => x.id != d2.id)) := by
  refine ⟨?_, ?_, ?_, ?_⟩
  · intro htarget _ _ _ _ hurl hconn hcall
    simp [update_database, htarget, hurl, hconn, hcall]
  · intro uid dbn fn d2 h
    have hp := List.find?_some h
    unfold dbMatches at hp
    rw [List.any_eq_true] at hp
    obtain ⟨f2, hf2mem, hf2⟩ := hp
    simp only [Bool.and_eq_true, beq_iff_eq] at hf2
    exact ⟨f2, hf2mem, hf2.1.1.1, hf2.1.1.2⟩
  · intro uid dbn conf force fn randP
    unfold reset_database_password
    cases hfind : get_database_by_name uid dbn s fn with
    | none =>
      left
      split_ifs <;> rfl
    | some d2 =>
      simp only
      split_ifs <;> first
      | (left; rfl)
      | (right; exact ⟨d2, rfl, rfl⟩)
  · intro uid dbn conf force dry fn
    unfold delete_database
    cases hfind : get_database_by_name uid dbn s fn with
    | none =>
      left
      split_ifs <;> rfl
    | some d2 =>
      simp only
      split_ifs <;> first
      | (left; rfl)
      | (right; exact ⟨d2, rfl, rfl⟩)

/-- Witness for `update_database_ignores_user`: user 2 owns folder
`shared` with database `app`; a caller identity 1 notwithstanding,
`update_database` renames user 2's record. -/
theorem update_database_ignores_user_witness :
    update_database_target "app" "shared" ⟨[⟨1, "shared", 2⟩], [⟨1, "app", "u", "p", 1⟩]⟩ =
      some ⟨1, "app", "u", "p", 1⟩ ∧
    (2 ≠ 1) ∧
    (update_database ⟨true, true, fun _ => true⟩ "app" "new" "u2" "shared"
      ⟨[⟨1, "shared", 2⟩], [⟨1, "app", "u", "p", 1⟩]⟩).ok = true ∧
    (update_database ⟨true, true, fun _ => true⟩ "app" "new" "u2" "shared"
      ⟨[⟨1, "shared", 2⟩], [⟨1, "app", "u", "p", 1⟩]⟩).store.databases =
      ([⟨1, "app", "u", "p", 1⟩].map fun x =>
        if x.id == (⟨1, "app", "u", "p", 1⟩ : Database).id then
          { x with name := "new", username := "u2" } else x) :=
  ⟨by decide, by decide,
    (update_database_ignores_user ⟨true, true, fun _ => true⟩ "app" "new" "u2" "shared"
      ⟨[⟨1, "shared", 2⟩], [⟨1, "app", "u", "p", 1⟩]⟩ ⟨1, "app", "u", "p", 1⟩ 1 2
      ⟨1, "shared", 2⟩).1 (by decide) (by decide) rfl rfl (by decide) rfl rfl rfl⟩

end Eidetica
